import Mathlib

/-!
Verification of the STL→STEP conversion pipeline (`src/scripts/convert.py`)
against its natural-language specification.

The script drives an external geometry kernel (FreeCAD).  We embed the
kernel's capability surface as records of functions: every kernel call may
either return a value or raise, which we model with `Except String`.  The
two core functions `repair_mesh` and `convert_stl_to_step` are translated
from the Python source line by line; `convert_run` additionally returns the
ordered trace of external actions performed (document creation, export,
session close, ...), which the source performs as side effects.
-/

/-- State of an in-memory mesh, as observed through the kernel's query
surface (`CountPoints`, `CountFacets`, `CountEdges`, `isSolid()`,
`hasNonManifolds()`, `hasSelfIntersections()`, `Volume`, `Area`). -/
structure MeshState where
  countPoints : Nat
  countFacets : Nat
  countEdges : Nat
  isSolid : Bool
  hasNonManifolds : Bool
  hasSelfIntersections : Bool
  volume : Int
  area : Int
deriving DecidableEq, Repr

/-- The mesh statistics record built by `get_mesh_info` (convert.py lines
33-44). -/
structure MeshInfo where
  points : Nat
  facets : Nat
  edges : Nat
  is_solid : Bool
  has_non_manifolds : Bool
  has_self_intersections : Bool
  volume : Option Int
  area : Int
deriving DecidableEq, Repr

/-- `get_mesh_info` (convert.py lines 33-44): extract mesh statistics.
`volume` is only defined when the mesh is solid. -/
def get_mesh_info (m : MeshState) : MeshInfo :=
  { points := m.countPoints
    facets := m.countFacets
    edges := m.countEdges
    is_solid := m.isSolid
    has_non_manifolds := m.hasNonManifolds
    has_self_intersections := m.hasSelfIntersections
    volume := if m.isSolid then some m.volume else none
    area := m.area }

/-- The mesh-mutating repair operations of the geometry kernel used by
`repair_mesh`.  Each is a black box that transforms the mesh state or
raises (`Except.error`). -/
structure Kernel where
  removeDuplicatedPoints : MeshState → Except String MeshState
  removeDuplicatedFacets : MeshState → Except String MeshState
  fixSelfIntersections : MeshState → Except String MeshState
  fixDegenerations : MeshState → Except String MeshState
  removeNonManifolds : MeshState → Except String MeshState
  fillupHoles : MeshState → Except String MeshState
  harmonizeNormals : MeshState → Except String MeshState

/-- convert.py lines 82-88: fill holes, then harmonize normals; both are
always attempted and unconditionally logged.  A raise propagates. -/
def repairFill (k : Kernel) (m : MeshState) (repairs : List String) :
    Except String (MeshState × List String) :=
  match k.fillupHoles m with
  | Except.error e => Except.error e
  | Except.ok m₁ =>
    let repairs := repairs ++ ["Filled holes"]
    match k.harmonizeNormals m₁ with
    | Except.error e => Except.error e
    | Except.ok m₂ => Except.ok (m₂, repairs ++ ["Harmonized normals"])

/-- convert.py lines 76-80: remove non-manifold geometry, attempted only if
the pre-check reports non-manifold edges, logged only if the post-check
clears the flag. -/
def repairNonManifold (k : Kernel) (m : MeshState) (repairs : List String) :
    Except String (MeshState × List String) :=
  if m.hasNonManifolds then
    match k.removeNonManifolds m with
    | Except.error e => Except.error e
    | Except.ok m₁ =>
      repairFill k m₁
        (if m₁.hasNonManifolds then repairs
         else repairs ++ ["Removed non-manifold geometry"])
  else repairFill k m repairs

/-- convert.py lines 72-74: fix degenerated facets, always attempted and
always logged. -/
def repairDegen (k : Kernel) (m : MeshState) (repairs : List String) :
    Except String (MeshState × List String) :=
  match k.fixDegenerations m with
  | Except.error e => Except.error e
  | Except.ok m₁ => repairNonManifold k m₁ (repairs ++ ["Fixed degenerations"])

/-- convert.py lines 66-70: fix self-intersections, attempted only if the
pre-check reports them, logged only if the post-check clears the flag. -/
def repairSelfInt (k : Kernel) (m : MeshState) (repairs : List String) :
    Except String (MeshState × List String) :=
  if m.hasSelfIntersections then
    match k.fixSelfIntersections m with
    | Except.error e => Except.error e
    | Except.ok m₁ =>
      repairDegen k m₁
        (if m₁.hasSelfIntersections then repairs
         else repairs ++ ["Fixed self-intersections"])
  else repairDegen k m repairs

/-- `repair_mesh` (convert.py lines 47-90): the fixed repair sequence.
There is no exception handling inside the function: a raise from any
operation propagates to the caller (`Except.error`). -/
def repair_mesh (k : Kernel) (m : MeshState) :
    Except String (MeshState × List String) :=
  let points_before := m.countPoints
  match k.removeDuplicatedPoints m with
  | Except.error e => Except.error e
  | Except.ok m₁ =>
    let repairs : List String :=
      if m₁.countPoints < points_before then
        ["Removed " ++ toString (points_before - m₁.countPoints) ++
          " duplicate points"]
      else []
    let facets_before := m₁.countFacets
    match k.removeDuplicatedFacets m₁ with
    | Except.error e => Except.error e
    | Except.ok m₂ =>
      let repairs :=
        if m₂.countFacets < facets_before then
          repairs ++ ["Removed " ++ toString (facets_before - m₂.countFacets) ++
            " duplicate facets"]
        else repairs
      repairSelfInt k m₂ repairs

/-- The conversion result dictionary (convert.py lines 107-189).  Keys that
the script may leave unset are `Option`-valued (`none` = key absent). -/
structure ConversionResult where
  success : Bool
  input : String
  output : String
  tolerance : Rat
  error : Option String
  stage : Option String
  mesh_info_before : Option MeshInfo
  mesh_info_after : Option MeshInfo
  repairs : Option (List String)
  is_solid : Option Bool
  output_size : Option Nat
deriving DecidableEq, Repr

/-- External actions performed by one invocation, in order. -/
inductive ExtAction where
  | newDocument : ExtAction
  | makeShape : ExtAction
  | makeSolid : ExtAction
  | attachObject : ExtAction
  | exportStep : ExtAction
  | closeDocument : ExtAction
deriving DecidableEq, Repr

/-- Behaviour of the external world (filesystem and geometry kernel) for
one invocation of `convert_stl_to_step`.  Each field gives the outcome of
the corresponding external call; shapes, documents and document objects are
opaque to the script, so calls producing them return `Unit`. -/
structure Env where
  inputExists : Bool
  readResult : Except String MeshState
  kernel : Kernel
  newDocument : Except String Unit
  makeShapeFromMesh : MeshState → Rat → Except String Unit
  makeSolid : Except String Unit
  attachObject : Except String Unit
  exportStep : Except String Unit
  outputExistsAfterExport : Bool
  outputSize : Nat
  closeDocument : Except String Unit

/-- The outer `except` handler (convert.py lines 179-187): record the raise
as `error` with stage `"conversion"`, then attempt `closeDocument` once
more, swallowing any raise from the close itself (`except: pass`). -/
def handleFatal (res : ConversionResult) (e : String) (tr : List ExtAction) :
    ConversionResult × List ExtAction :=
  ({ res with error := some e, stage := some "conversion" },
   tr ++ [ExtAction.closeDocument])

/-- convert.py lines 144-189: the geometry-reconstruction, export and
cleanup portion of `convert_stl_to_step`, entered with the result record
and mesh as left by the read/repair stages. -/
def convertFromDoc (env : Env) (result : ConversionResult) (mesh : MeshState)
    (tolerance : Rat) : ConversionResult × List ExtAction :=
  -- line 145: FreeCAD.newDocument
  match env.newDocument with
  | Except.error e => handleFatal result e [ExtAction.newDocument]
  | Except.ok _ =>
    -- lines 148-149: shape.makeShapeFromMesh(topology, tolerance)
    match env.makeShapeFromMesh mesh tolerance with
    | Except.error e =>
      handleFatal result e [ExtAction.newDocument, ExtAction.makeShape]
    | Except.ok _ =>
      -- lines 152-159: try to make a solid, shell fallback
      let result :=
        match env.makeSolid with
        | Except.ok _ => { result with is_solid := some true }
        | Except.error _ => { result with is_solid := some false }
      let tr := [ExtAction.newDocument, ExtAction.makeShape, ExtAction.makeSolid]
      -- lines 162-163: doc.addObject / obj.Shape assignment
      match env.attachObject with
      | Except.error e => handleFatal result e (tr ++ [ExtAction.attachObject])
      | Except.ok _ =>
        let tr := tr ++ [ExtAction.attachObject]
        -- line 166: Import.export
        match env.exportStep with
        | Except.error e => handleFatal result e (tr ++ [ExtAction.exportStep])
        | Except.ok _ =>
          let tr := tr ++ [ExtAction.exportStep]
          -- lines 169-174: verify output
          let result :=
            if env.outputExistsAfterExport then
              { result with success := true
                            output_size := some env.outputSize }
            else
              { result with error := some "STEP file was not created"
                            stage := some "export" }
          -- line 177: cleanup inside the try block; a raise here goes to
          -- the outer handler
          match env.closeDocument with
          | Except.ok _ => (result, tr ++ [ExtAction.closeDocument])
          | Except.error e => handleFatal result e (tr ++ [ExtAction.closeDocument])

/-- `convert_stl_to_step` (convert.py lines 93-189), instrumented to also
return the ordered trace of external actions performed. -/
def convert_run (env : Env) (input_path output_path : String)
    (tolerance : Rat) (repair : Bool) (info_only : Bool) :
    ConversionResult × List ExtAction :=
  let result : ConversionResult :=
    { success := false
      input := input_path
      output := output_path
      tolerance := tolerance
      error := none
      stage := none
      mesh_info_before := none
      mesh_info_after := none
      repairs := none
      is_solid := none
      output_size := none }
  -- lines 116-119: validate input file
  if env.inputExists = false then
    ({ result with error := some ("Input file not found: " ++ input_path)
                   stage := some "validation" }, [])
  else
    -- lines 122-123: mesh.read may raise (caught by the outer handler)
    match env.readResult with
    | Except.error e => handleFatal result e []
    | Except.ok mesh =>
      -- lines 125-128: empty-mesh check
      if mesh.countFacets = 0 then
        ({ result with error := some "STL file contains no geometry"
                       stage := some "read" }, [])
      else
        -- line 131
        let result := { result with mesh_info_before := some (get_mesh_info mesh) }
        -- lines 134-136: info-only short circuit
        if info_only then ({ result with success := true }, [])
        else
          -- lines 139-142: optional repair; a raise inside repair_mesh
          -- propagates to the outer handler
          match
            (if repair then
              match repair_mesh env.kernel mesh with
              | Except.error e => Except.error e
              | Except.ok (m, reps) =>
                Except.ok ({ result with
                              repairs := some reps
                              mesh_info_after := some (get_mesh_info m) }, m)
            else Except.ok (result, mesh)) with
          | Except.error e => handleFatal result e []
          | Except.ok (result, mesh) => convertFromDoc env result mesh tolerance

/-- The result dictionary returned by `convert_stl_to_step`. -/
def convert_stl_to_step (env : Env) (input_path output_path : String)
    (tolerance : Rat) (repair : Bool) (info_only : Bool) : ConversionResult :=
  (convert_run env input_path output_path tolerance repair info_only).1

/-! ## Specification-side model of the repair sequence

Spec §4.2 and §9 describe the repair sequencer as a fixed, ordered list of
operation descriptors, each with a precondition gating the attempt and a
logging rule comparing the pre/post states.  These definitions follow the
spec's words; the refinement theorem for C3 compares them with
`repair_mesh`, which is translated from the source. -/

/-- Modelled from the spec (§4.2, §9): one repair-operation descriptor. -/
structure RepairOp where
  precond : MeshState → Bool
  applyOp : Kernel → MeshState → Except String MeshState
  logEntry : MeshState → MeshState → Option String

/-- Spec §4.2, operation 1: remove duplicated points, effective iff the
post-count is below the pre-count. -/
def opDupPoints : RepairOp :=
  { precond := fun _ => true
    applyOp := fun k m => k.removeDuplicatedPoints m
    logEntry := fun pre post =>
      if post.countPoints < pre.countPoints then
        some ("Removed " ++ toString (pre.countPoints - post.countPoints) ++
          " duplicate points")
      else none }

/-- Spec §4.2, operation 2: remove duplicated facets, effective iff the
post-count is below the pre-count. -/
def opDupFacets : RepairOp :=
  { precond := fun _ => true
    applyOp := fun k m => k.removeDuplicatedFacets m
    logEntry := fun pre post =>
      if post.countFacets < pre.countFacets then
        some ("Removed " ++ toString (pre.countFacets - post.countFacets) ++
          " duplicate facets")
      else none }

/-- Spec §4.2, operation 3: resolve self-intersections, attempted only if
the pre-check reports them, logged only if the post-check clears the
flag. -/
def opSelfInt : RepairOp :=
  { precond := fun m => m.hasSelfIntersections
    applyOp := fun k m => k.fixSelfIntersections m
    logEntry := fun _ post =>
      if post.hasSelfIntersections then none else some "Fixed self-intersections" }

/-- Spec §4.2, operation 4: fix degenerate facets, always attempted, always
logged. -/
def opDegen : RepairOp :=
  { precond := fun _ => true
    applyOp := fun k m => k.fixDegenerations m
    logEntry := fun _ _ => some "Fixed degenerations" }

/-- Spec §4.2, operation 5: remove non-manifold geometry, attempted only if
the pre-check reports non-manifold edges, logged only if the flag
clears. -/
def opNonManifold : RepairOp :=
  { precond := fun m => m.hasNonManifolds
    applyOp := fun k m => k.removeNonManifolds m
    logEntry := fun _ post =>
      if post.hasNonManifolds then none else some "Removed non-manifold geometry" }

/-- Spec §4.2, operation 6: fill holes, always attempted, always logged. -/
def opFillHoles : RepairOp :=
  { precond := fun _ => true
    applyOp := fun k m => k.fillupHoles m
    logEntry := fun _ _ => some "Filled holes" }

/-- Spec §4.2, operation 7: harmonize normals, always attempted, always
logged. -/
def opHarmonize : RepairOp :=
  { precond := fun _ => true
    applyOp := fun k m => k.harmonizeNormals m
    logEntry := fun _ _ => some "Harmonized normals" }

/-- Spec §4.2: the fixed ordered sequence of the seven repair operations,
and no others. -/
def repairOps : List RepairOp :=
  [opDupPoints, opDupFacets, opSelfInt, opDegen, opNonManifold,
   opFillHoles, opHarmonize]

/-- Modelled from the spec (§4.2): run a list of repair-operation
descriptors in order.  An operation is attempted only if its precondition
holds; its log rule may append one entry; a fault aborts the run. -/
def runRepairOps (k : Kernel) :
    List RepairOp → MeshState → List String →
    Except String (MeshState × List String)
  | [], m, log => Except.ok (m, log)
  | op :: rest, m, log =>
    if op.precond m then
      match op.applyOp k m with
      | Except.error e => Except.error e
      | Except.ok m' => runRepairOps k rest m' (log ++ (op.logEntry m m').toList)
    else runRepairOps k rest m log

/-! ## Concrete fixtures used by witnesses and counterexamples -/

/-- A defect-free closed mesh (12 facets, like the spec's `cube.stl`). -/
def meshClean : MeshState :=
  { countPoints := 8, countFacets := 12, countEdges := 18, isSolid := true
    hasNonManifolds := false, hasSelfIntersections := false
    volume := 1, area := 6 }

/-- A mesh with zero facets (the spec's `empty.stl`). -/
def meshEmpty : MeshState :=
  { countPoints := 0, countFacets := 0, countEdges := 0, isSolid := false
    hasNonManifolds := false, hasSelfIntersections := false
    volume := 0, area := 0 }

/-- A mesh equal to `meshClean` except that two of its points are
duplicates (10 recorded points, 8 distinct). -/
def meshDup : MeshState := { meshClean with countPoints := 10 }

/-- A kernel whose repair operations all succeed and change nothing. -/
def kernelId : Kernel :=
  { removeDuplicatedPoints := fun m => Except.ok m
    removeDuplicatedFacets := fun m => Except.ok m
    fixSelfIntersections := fun m => Except.ok m
    fixDegenerations := fun m => Except.ok m
    removeNonManifolds := fun m => Except.ok m
    fillupHoles := fun m => Except.ok m
    harmonizeNormals := fun m => Except.ok m }

/-- A kernel whose duplicate-point removal collapses the point count to the
8 distinct points and whose other operations change nothing: a faithful
model of the kernel acting on `meshDup`. -/
def kernelDedup : Kernel :=
  { kernelId with
    removeDuplicatedPoints := fun m => Except.ok { m with countPoints := min m.countPoints 8 } }

/-- A kernel whose `fixDegenerations` raises; all other operations
succeed unchanged. -/
def kernelDegenFault : Kernel :=
  { kernelId with fixDegenerations := fun _ => Except.error "fixDegenerations failed" }

/-- An environment in which every external call succeeds: the input file
exists, reading yields `meshClean`, and the exported file exists with 1234
bytes. -/
def envOk : Env :=
  { inputExists := true
    readResult := Except.ok meshClean
    kernel := kernelId
    newDocument := Except.ok ()
    makeShapeFromMesh := fun _ _ => Except.ok ()
    makeSolid := Except.ok ()
    attachObject := Except.ok ()
    exportStep := Except.ok ()
    outputExistsAfterExport := true
    outputSize := 1234
    closeDocument := Except.ok () }

/-- `envOk` with an empty input mesh. -/
def envEmpty : Env := { envOk with readResult := Except.ok meshEmpty }

/-- `envOk` except that solid promotion (`Part.makeSolid`) raises. -/
def envNoSolid : Env := { envOk with makeSolid := Except.error "solid failed" }

/-- `envOk` except that the STEP export call raises. -/
def envExportFault : Env := { envOk with exportStep := Except.error "export boom" }

/-- `envOk` except that no file exists at the output path after export. -/
def envNoOutput : Env := { envOk with outputExistsAfterExport := false }

/-- `envOk` except that the exported file has size zero. -/
def envZeroSize : Env := { envOk with outputSize := 0 }

/-- `envOk` except that no output file is produced and closing the
document raises. -/
def envCloseFault : Env :=
  { envOk with outputExistsAfterExport := false
               closeDocument := Except.error "close failed" }

/-- `envOk` with the kernel whose `fixDegenerations` raises. -/
def envRepairFault : Env := { envOk with kernel := kernelDegenFault }

/-! ## Helper lemmas -/

lemma runRepairOps_fill (k : Kernel) (m : MeshState) (log : List String) :
    runRepairOps k [opFillHoles, opHarmonize] m log = repairFill k m log := by
  simp only [runRepairOps, opFillHoles, opHarmonize, repairFill, if_true]
  cases h1 : k.fillupHoles m with
  | error e => simp [h1]
  | ok m1 =>
    simp only [h1]
    cases h2 : k.harmonizeNormals m1 with
    | error e => simp [h2]
    | ok m2 => simp [h2]

lemma runRepairOps_nm (k : Kernel) (m : MeshState) (log : List String) :
    runRepairOps k [opNonManifold, opFillHoles, opHarmonize] m log =
      repairNonManifold k m log := by
  rw [repairNonManifold]
  cases hnm : m.hasNonManifolds with
  | false =>
    rw [runRepairOps]
    simp only [opNonManifold, hnm, if_false, Bool.false_eq_true, ite_false]
    exact runRepairOps_fill k m log
  | true =>
    rw [runRepairOps]
    simp only [opNonManifold, hnm, ite_true]
    cases hop : k.removeNonManifolds m with
    | error e => simp
    | ok m1 =>
      simp only []
      cases hnm2 : m1.hasNonManifolds with
      | false => simp only [Bool.false_eq_true, ite_false, Option.toList_some,
          runRepairOps_fill, if_false]
      | true => simp only [ite_true, Option.toList_none, List.append_nil,
          runRepairOps_fill, if_true]

lemma runRepairOps_degen (k : Kernel) (m : MeshState) (log : List String) :
    runRepairOps k [opDegen, opNonManifold, opFillHoles, opHarmonize] m log =
      repairDegen k m log := by
  rw [repairDegen, runRepairOps]
  simp only [opDegen, ite_true]
  cases h : k.fixDegenerations m with
  | error e => simp
  | ok m1 => simp only [Option.toList_some, runRepairOps_nm]

lemma runRepairOps_si (k : Kernel) (m : MeshState) (log : List String) :
    runRepairOps k [opSelfInt, opDegen, opNonManifold, opFillHoles, opHarmonize] m log =
      repairSelfInt k m log := by
  rw [repairSelfInt, runRepairOps]
  cases hsi : m.hasSelfIntersections with
  | false =>
    simp only [opSelfInt, hsi, Bool.false_eq_true, ite_false]
    exact runRepairOps_degen k m log
  | true =>
    simp only [opSelfInt, hsi, ite_true]
    cases hop : k.fixSelfIntersections m with
    | error e => simp
    | ok m1 =>
      simp only []
      cases hsi2 : m1.hasSelfIntersections with
      | false => simp only [Bool.false_eq_true, ite_false, Option.toList_some,
          runRepairOps_degen, if_false]
      | true => simp only [ite_true, Option.toList_none, List.append_nil,
          runRepairOps_degen, if_true]

lemma repairFill_ok (k : Kernel) (m : MeshState) (rs : List String)
    (res : MeshState × List String) (h : repairFill k m rs = Except.ok res) :
    ∃ t, res.2 = rs ++ t ∧ "Filled holes" ∈ t ∧ "Harmonized normals" ∈ t := by
  rw [repairFill] at h
  cases h1 : k.fillupHoles m with
  | error e => simp only [h1] at h; exact Except.noConfusion h
  | ok m1 =>
    simp only [h1] at h
    cases h2 : k.harmonizeNormals m1 with
    | error e => simp only [h2] at h; exact Except.noConfusion h
    | ok m2 =>
      simp only [h2, Except.ok.injEq] at h
      refine ⟨["Filled holes", "Harmonized normals"], ?_, by simp, by simp⟩
      rw [← h]
      simp

lemma repairNonManifold_ok (k : Kernel) (m : MeshState) (rs : List String)
    (res : MeshState × List String) (h : repairNonManifold k m rs = Except.ok res) :
    ∃ t, res.2 = rs ++ t ∧ "Filled holes" ∈ t ∧ "Harmonized normals" ∈ t := by
  rw [repairNonManifold] at h
  by_cases hnm : m.hasNonManifolds = true
  · rw [if_pos hnm] at h
    cases hop : k.removeNonManifolds m with
    | error e => simp only [hop] at h; exact Except.noConfusion h
    | ok m1 =>
      simp only [hop] at h
      by_cases hnm2 : m1.hasNonManifolds = true
      · rw [if_pos hnm2] at h
        exact repairFill_ok k m1 rs res h
      · rw [if_neg hnm2] at h
        obtain ⟨t, ht, hf, hh⟩ := repairFill_ok k m1 _ res h
        exact ⟨"Removed non-manifold geometry" :: t, by simpa using ht,
          List.mem_cons_of_mem _ hf, List.mem_cons_of_mem _ hh⟩
  · rw [if_neg hnm] at h
    exact repairFill_ok k m rs res h

lemma repairDegen_ok (k : Kernel) (m : MeshState) (rs : List String)
    (res : MeshState × List String) (h : repairDegen k m rs = Except.ok res) :
    ∃ t, res.2 = rs ++ t ∧ "Fixed degenerations" ∈ t ∧ "Filled holes" ∈ t ∧
      "Harmonized normals" ∈ t := by
  rw [repairDegen] at h
  cases hop : k.fixDegenerations m with
  | error e => simp only [hop] at h; exact Except.noConfusion h
  | ok m1 =>
    simp only [hop] at h
    obtain ⟨t, ht, hf, hh⟩ := repairNonManifold_ok k m1 _ res h
    exact ⟨"Fixed degenerations" :: t, by simpa using ht, List.mem_cons_self _ _,
      List.mem_cons_of_mem _ hf, List.mem_cons_of_mem _ hh⟩

lemma repairSelfInt_ok (k : Kernel) (m : MeshState) (rs : List String)
    (res : MeshState × List String) (h : repairSelfInt k m rs = Except.ok res) :
    ∃ t, res.2 = rs ++ t ∧ "Fixed degenerations" ∈ t ∧ "Filled holes" ∈ t ∧
      "Harmonized normals" ∈ t := by
  rw [repairSelfInt] at h
  by_cases hsi : m.hasSelfIntersections = true
  · rw [if_pos hsi] at h
    cases hop : k.fixSelfIntersections m with
    | error e => simp only [hop] at h; exact Except.noConfusion h
    | ok m1 =>
      simp only [hop] at h
      by_cases hsi2 : m1.hasSelfIntersections = true
      · rw [if_pos hsi2] at h
        exact repairDegen_ok k m1 rs res h
      · rw [if_neg hsi2] at h
        obtain ⟨t, ht, hd, hf, hh⟩ := repairDegen_ok k m1 _ res h
        exact ⟨"Fixed self-intersections" :: t, by simpa using ht,
          List.mem_cons_of_mem _ hd, List.mem_cons_of_mem _ hf,
          List.mem_cons_of_mem _ hh⟩
  · rw [if_neg hsi] at h
    exact repairDegen_ok k m rs res h

lemma convertFromDoc_inv (env : Env) (result : ConversionResult) (mesh : MeshState)
    (tol : Rat) (he : result.error = none) (hst : result.stage = none)
    (hs : result.success = false) :
    ((convertFromDoc env result mesh tol).1.success = false →
      ((convertFromDoc env result mesh tol).1.error.isSome ∧
       (convertFromDoc env result mesh tol).1.stage.isSome)) ∧
    ((convertFromDoc env result mesh tol).1.success = true →
      ((convertFromDoc env result mesh tol).1.error = none ∧
       (convertFromDoc env result mesh tol).1.stage = none) ∨
      ((convertFromDoc env result mesh tol).1.error.isSome ∧
       (convertFromDoc env result mesh tol).1.stage = some "conversion")) ∧
    ExtAction.closeDocument ∈ (convertFromDoc env result mesh tol).2 ∧
    (convertFromDoc env result mesh tol).1.mesh_info_after = result.mesh_info_after := by
  rw [convertFromDoc]
  cases hnd : env.newDocument with
  | error e => simp [handleFatal]
  | ok u =>
    simp only [hnd]
    cases hms : env.makeShapeFromMesh mesh tol with
    | error e => simp [handleFatal]
    | ok u2 =>
      simp only [hms]
      cases hsol : env.makeSolid <;> simp only [hsol] <;>
      · cases hat : env.attachObject with
        | error e => simp [handleFatal]
        | ok u3 =>
          simp only [hat]
          cases hex : env.exportStep with
          | error e => simp [handleFatal]
          | ok u4 =>
            simp only [hex]
            by_cases hoe : env.outputExistsAfterExport = true
            · rw [if_pos hoe]
              cases hcd : env.closeDocument with
              | error e => simp [handleFatal, he, hst]
              | ok u5 => simp [he, hst]
            · rw [if_neg hoe]
              cases hcd : env.closeDocument with
              | error e => simp [handleFatal, hs]
              | ok u5 => simp [hs]

lemma convert_run_inv (env : Env) (ip op : String) (tol : Rat) (rep io : Bool) :
    ((convert_run env ip op tol rep io).1.success = false →
      ((convert_run env ip op tol rep io).1.error.isSome ∧
       (convert_run env ip op tol rep io).1.stage.isSome)) ∧
    ((convert_run env ip op tol rep io).1.success = true →
      ((convert_run env ip op tol rep io).1.error = none ∧
       (convert_run env ip op tol rep io).1.stage = none) ∨
      ((convert_run env ip op tol rep io).1.error.isSome ∧
       (convert_run env ip op tol rep io).1.stage = some "conversion")) ∧
    (ExtAction.newDocument ∈ (convert_run env ip op tol rep io).2 →
      ExtAction.closeDocument ∈ (convert_run env ip op tol rep io).2) ∧
    ((convert_run env ip op tol rep io).1.mesh_info_after.isSome = true ↔
      (rep = true ∧ io = false ∧ env.inputExists = true ∧
        ∃ m, env.readResult = Except.ok m ∧ m.countFacets ≠ 0 ∧
          ∃ x, repair_mesh env.kernel m = Except.ok x)) := by
  by_cases h1 : env.inputExists = false
  · simp [convert_run, h1]
  · have h1' : env.inputExists = true := by revert h1; cases env.inputExists <;> simp
    cases hrr : env.readResult with
    | error e => simp [convert_run, h1', hrr, handleFatal]
    | ok mesh =>
      by_cases h2 : mesh.countFacets = 0
      · simp [convert_run, h1', hrr, h2]
      · by_cases hio : io = true
        · subst hio
          simp [convert_run, h1', hrr, h2]
        · have hio' : io = false := by revert hio; cases io <;> simp
          subst hio'
          by_cases hrep : rep = true
          · subst hrep
            cases hrm : repair_mesh env.kernel mesh with
            | error e =>
              simp [convert_run, h1', hrr, h2, hrm, handleFatal]
            | ok pr =>
              obtain ⟨m2, reps⟩ := pr
              have heq : convert_run env ip op tol true false =
                  convertFromDoc env
                    { success := false, input := ip, output := op, tolerance := tol,
                      error := none, stage := none,
                      mesh_info_before := some (get_mesh_info mesh),
                      mesh_info_after := some (get_mesh_info m2),
                      repairs := some reps, is_solid := none, output_size := none }
                    m2 tol := by
                simp [convert_run, h1', hrr, h2, hrm]
              obtain ⟨p1, p2, p3, p4⟩ := convertFromDoc_inv env
                { success := false, input := ip, output := op, tolerance := tol,
                  error := none, stage := none,
                  mesh_info_before := some (get_mesh_info mesh),
                  mesh_info_after := some (get_mesh_info m2),
                  repairs := some reps, is_solid := none, output_size := none }
                m2 tol rfl rfl rfl
              rw [heq]
              refine ⟨p1, p2, fun _ => p3, iff_of_true ?_
                ⟨rfl, rfl, h1', mesh, rfl, h2, (m2, reps), hrm⟩⟩
              rw [p4]
              rfl
          · have hrep' : rep = false := by revert hrep; cases rep <;> simp
            subst hrep'
            have heq : convert_run env ip op tol false false =
                convertFromDoc env
                  { success := false, input := ip, output := op, tolerance := tol,
                    error := none, stage := none,
                    mesh_info_before := some (get_mesh_info mesh),
                    mesh_info_after := none,
                    repairs := none, is_solid := none, output_size := none }
                  mesh tol := by
              simp [convert_run, h1', hrr, h2]
            obtain ⟨p1, p2, p3, p4⟩ := convertFromDoc_inv env
              { success := false, input := ip, output := op, tolerance := tol,
                error := none, stage := none,
                mesh_info_before := some (get_mesh_info mesh),
                mesh_info_after := none,
                repairs := none, is_solid := none, output_size := none }
              mesh tol rfl rfl rfl
            rw [heq]
            exact ⟨p1, p2, fun _ => p3,
              iff_of_false (by rw [p4]; simp) (by simp)⟩

lemma convertFromDoc_success_close (env : Env) (result : ConversionResult)
    (mesh : MeshState) (tol : Rat) :
    (convertFromDoc { env with closeDocument := Except.ok () } result mesh tol).1.success =
    (convertFromDoc env result mesh tol).1.success := by
  rw [convertFromDoc, convertFromDoc]
  cases hnd : env.newDocument with
  | error e => simp [hnd, handleFatal]
  | ok u =>
    simp only [hnd]
    cases hms : env.makeShapeFromMesh mesh tol with
    | error e => simp [hms, handleFatal]
    | ok u2 =>
      simp only [hms]
      cases hsol : env.makeSolid <;> simp only [hsol] <;>
      · cases hat : env.attachObject with
        | error e => simp [hat, handleFatal]
        | ok u3 =>
          simp only [hat]
          cases hex : env.exportStep with
          | error e => simp [hex, handleFatal]
          | ok u4 =>
            simp only [hex]
            by_cases hoe : env.outputExistsAfterExport = true
            · simp only [hoe, if_pos]
              cases hcd : env.closeDocument with
              | error e => simp [hcd, handleFatal]
              | ok u5 => simp [hcd]
            · have hoe' : env.outputExistsAfterExport = false := by
                revert hoe; cases env.outputExistsAfterExport <;> simp
              simp only [hoe']
              cases hcd : env.closeDocument with
              | error e => simp [hcd, handleFatal]
              | ok u5 => simp [hcd]

lemma convert_run_success_close (env : Env) (ip op : String) (tol : Rat)
    (rep io : Bool) :
    (convert_run { env with closeDocument := Except.ok () } ip op tol rep io).1.success =
    (convert_run env ip op tol rep io).1.success := by
  by_cases h1 : env.inputExists = false
  · simp [convert_run, h1]
  · have h1' : env.inputExists = true := by revert h1; cases env.inputExists <;> simp
    cases hrr : env.readResult with
    | error e => simp [convert_run, h1', hrr, handleFatal]
    | ok mesh =>
      by_cases h2 : mesh.countFacets = 0
      · simp [convert_run, h1', hrr, h2]
      · by_cases hio : io = true
        · subst hio; simp [convert_run, h1', hrr, h2]
        · have hio' : io = false := by revert hio; cases io <;> simp
          subst hio'
          by_cases hrep : rep = true
          · subst hrep
            cases hrm : repair_mesh env.kernel mesh with
            | error e => simp [convert_run, h1', hrr, h2, hrm, handleFatal]
            | ok pr =>
              obtain ⟨m2, reps⟩ := pr
              simp only [convert_run, h1', hrr, h2, hrm]
              simp only [Bool.true_eq_false, if_false, ite_true, ite_false]
              exact convertFromDoc_success_close env _ m2 tol
          · have hrep' : rep = false := by revert hrep; cases rep <;> simp
            subst hrep'
            simp only [convert_run, h1', hrr, h2]
            simp only [Bool.true_eq_false, if_false, ite_true, ite_false]
            exact convertFromDoc_success_close env _ mesh tol
lemma convert_run_norepair (env : Env) (ip op : String) (tol : Rat)
    (mesh : MeshState) (h1 : env.inputExists = true)
    (hrr : env.readResult = Except.ok mesh) (h2 : ¬ mesh.countFacets = 0) :
    convert_run env ip op tol false false =
      convertFromDoc env
        { success := false, input := ip, output := op, tolerance := tol,
          error := none, stage := none,
          mesh_info_before := some (get_mesh_info mesh),
          mesh_info_after := none,
          repairs := none, is_solid := none, output_size := none }
        mesh tol := by
  simp [convert_run, h1, hrr, h2]

lemma convert_run_repair (env : Env) (ip op : String) (tol : Rat)
    (mesh m2 : MeshState) (reps : List String) (h1 : env.inputExists = true)
    (hrr : env.readResult = Except.ok mesh) (h2 : ¬ mesh.countFacets = 0)
    (hrm : repair_mesh env.kernel mesh = Except.ok (m2, reps)) :
    convert_run env ip op tol true false =
      convertFromDoc env
        { success := false, input := ip, output := op, tolerance := tol,
          error := none, stage := none,
          mesh_info_before := some (get_mesh_info mesh),
          mesh_info_after := some (get_mesh_info m2),
          repairs := some reps, is_solid := none, output_size := none }
        m2 tol := by
  simp [convert_run, h1, hrr, h2, hrm]

lemma convertFromDoc_verify_eq (env : Env) (result : ConversionResult)
    (mesh : MeshState) (tol : Rat)
    (hnd : env.newDocument = Except.ok ())
    (hms : env.makeShapeFromMesh mesh tol = Except.ok ())
    (hat : env.attachObject = Except.ok ())
    (hex : env.exportStep = Except.ok ())
    (hcd : env.closeDocument = Except.ok ()) :
    (convertFromDoc env result mesh tol).1 =
      (if env.outputExistsAfterExport then
        { result with is_solid := some env.makeSolid.isOk
                      success := true
                      output_size := some env.outputSize }
       else
        { result with is_solid := some env.makeSolid.isOk
                      error := some "STEP file was not created"
                      stage := some "export" }) := by
  rw [convertFromDoc]
  simp only [hnd, hms, hat, hex]
  cases hsol : env.makeSolid <;>
    by_cases hoe : env.outputExistsAfterExport = true <;>
    simp [hsol, hoe, hcd, Except.isOk, Except.toBool]

lemma convertFromDoc_export_fault (env : Env) (result : ConversionResult)
    (mesh : MeshState) (tol : Rat) (e : String)
    (hnd : env.newDocument = Except.ok ())
    (hms : env.makeShapeFromMesh mesh tol = Except.ok ())
    (hat : env.attachObject = Except.ok ())
    (hex : env.exportStep = Except.error e) :
    (convertFromDoc env result mesh tol).1 =
      { result with is_solid := some env.makeSolid.isOk
                    error := some e
                    stage := some "conversion" } := by
  rw [convertFromDoc]
  simp only [hnd, hms, hat]
  cases hsol : env.makeSolid <;>
    simp [hsol, hex, handleFatal, Except.isOk, Except.toBool]
/-! ## Claims -/

/-- **C1** (corrected), counterexample: a fully successful invocation
returns success=true with NO stage key at all — in particular the stage is
never `"complete"`, refuting the claimed partition as stated. -/
theorem conversion_success_has_no_complete_stage :
    (convert_stl_to_step envOk "in.stl" "out.step" 1 true false).success = true ∧
    (convert_stl_to_step envOk "in.stl" "out.step" 1 true false).stage = none ∧
    (convert_stl_to_step envOk "in.stl" "out.step" 1 true false).stage ≠
      some "complete" := by
  exact ⟨rfl, rfl, by decide⟩

/-- **C1** (amended): every ConversionResult satisfies exactly one of:
success=true — with no stage recorded on a clean success, or stage
`"conversion"` together with an error if the session close faulted after
success — or success=false with a non-null error and a non-null stage. -/
theorem conversion_result_status_partition (env : Env) (ip op : String)
    (tol : Rat) (rep io : Bool) :
    ((convert_stl_to_step env ip op tol rep io).success = false →
      ((convert_stl_to_step env ip op tol rep io).error.isSome ∧
       (convert_stl_to_step env ip op tol rep io).stage.isSome)) ∧
    ((convert_stl_to_step env ip op tol rep io).success = true →
      ((convert_stl_to_step env ip op tol rep io).error = none ∧
       (convert_stl_to_step env ip op tol rep io).stage = none) ∨
      ((convert_stl_to_step env ip op tol rep io).error.isSome ∧
       (convert_stl_to_step env ip op tol rep io).stage = some "conversion")) :=
  ⟨(convert_run_inv env ip op tol rep io).1, (convert_run_inv env ip op tol rep io).2.1⟩

/-- Witness for `conversion_result_status_partition` at the all-succeeding
environment. -/
theorem conversion_result_status_partition_witness :
    ((convert_stl_to_step envOk "in.stl" "out.step" 1 true false).error = none ∧
     (convert_stl_to_step envOk "in.stl" "out.step" 1 true false).stage = none) ∨
    ((convert_stl_to_step envOk "in.stl" "out.step" 1 true false).error.isSome ∧
     (convert_stl_to_step envOk "in.stl" "out.step" 1 true false).stage =
       some "conversion") :=
  (conversion_result_status_partition envOk "in.stl" "out.step" 1 true false).2 rfl

/-- **C3** (confirmed): `repair_mesh` applies exactly the fixed ordered
sequence of the seven repair operations described by the spec — duplicate
points, duplicate facets, self-intersections (gated on the pre-check,
logged on the post-check), degenerations (always logged), non-manifolds
(gated, logged on clearing), hole filling and normal harmonization (always
logged) — and no other operations: it coincides with running the spec's
ordered descriptor list. -/
theorem repair_mesh_refines_fixed_sequence (k : Kernel) (m : MeshState) :
    repair_mesh k m = runRepairOps k repairOps m [] := by
  rw [repair_mesh, repairOps, runRepairOps]
  simp only [opDupPoints, ite_true]
  cases h1 : k.removeDuplicatedPoints m with
  | error e => simp
  | ok m1 =>
    simp only []
    rw [runRepairOps]
    simp only [opDupFacets, ite_true]
    cases h2 : k.removeDuplicatedFacets m1 with
    | error e => simp
    | ok m2 =>
      simp only []
      cases hp : decide (m1.countPoints < m.countPoints) with
      | false =>
        simp only [of_decide_eq_false hp, ite_false]
        cases hf : decide (m2.countFacets < m1.countFacets) with
        | false => simp [of_decide_eq_false hp, of_decide_eq_false hf, runRepairOps_si]
        | true => simp [of_decide_eq_false hp, of_decide_eq_true hf, runRepairOps_si]
      | true =>
        cases hf : decide (m2.countFacets < m1.countFacets) with
        | false => simp [of_decide_eq_true hp, of_decide_eq_false hf, runRepairOps_si]
        | true => simp [of_decide_eq_true hp, of_decide_eq_true hf, runRepairOps_si]

/-- **C5** (corrected), counterexample: on a zero-facet mesh the recorded
stage is `"read"`, not `"empty_mesh"`. -/
theorem empty_mesh_stage_is_read_not_empty_mesh :
    (convert_stl_to_step envEmpty "in.stl" "out.step" 1 true false).success = false ∧
    (convert_stl_to_step envEmpty "in.stl" "out.step" 1 true false).stage =
      some "read" ∧
    (convert_stl_to_step envEmpty "in.stl" "out.step" 1 true false).stage ≠
      some "empty_mesh" := by
  exact ⟨rfl, rfl, by decide⟩

/-- **C5** (amended): a mesh that reads successfully but has zero facets
terminates the pipeline with success=false, the error "STL file contains no
geometry", and stage `"read"`. -/
theorem empty_mesh_terminates_at_read_stage (env : Env) (ip op : String)
    (tol : Rat) (rep io : Bool) (mesh : MeshState)
    (h1 : env.inputExists = true) (hrr : env.readResult = Except.ok mesh)
    (hz : mesh.countFacets = 0) :
    (convert_stl_to_step env ip op tol rep io).success = false ∧
    (convert_stl_to_step env ip op tol rep io).error =
      some "STL file contains no geometry" ∧
    (convert_stl_to_step env ip op tol rep io).stage = some "read" := by
  refine ⟨?_, ?_, ?_⟩ <;> simp [convert_stl_to_step, convert_run, h1, hrr, hz]

/-- Witness for `empty_mesh_terminates_at_read_stage` at the concrete
empty-mesh environment. -/
theorem empty_mesh_terminates_at_read_stage_witness :
    (convert_stl_to_step envEmpty "e.stl" "e.step" 1 false false).success = false ∧
    (convert_stl_to_step envEmpty "e.stl" "e.step" 1 false false).error =
      some "STL file contains no geometry" ∧
    (convert_stl_to_step envEmpty "e.stl" "e.step" 1 false false).stage =
      some "read" :=
  empty_mesh_terminates_at_read_stage envEmpty "e.stl" "e.step" 1 false false
    meshEmpty rfl rfl rfl

/-- **C10** (confirmed): whenever the repair sequence returns at all, its
log contains the three unconditional entries "Fixed degenerations",
"Filled holes" and "Harmonized normals"; in particular the log is never
empty, even for a defect-free mesh. -/
theorem repair_log_contains_unconditional_entries (k : Kernel) (m : MeshState)
    (res : MeshState × List String) (h : repair_mesh k m = Except.ok res) :
    "Fixed degenerations" ∈ res.2 ∧ "Filled holes" ∈ res.2 ∧
      "Harmonized normals" ∈ res.2 ∧ res.2 ≠ [] := by
  rw [repair_mesh] at h
  cases h1 : k.removeDuplicatedPoints m with
  | error e => simp only [h1] at h; exact Except.noConfusion h
  | ok m1 =>
    simp only [h1] at h
    cases h2 : k.removeDuplicatedFacets m1 with
    | error e => simp only [h2] at h; exact Except.noConfusion h
    | ok m2 =>
      simp only [h2] at h
      obtain ⟨t, ht, hd, hf, hh⟩ := repairSelfInt_ok k m2 _ res h
      rw [ht]
      exact ⟨List.mem_append_right _ hd, List.mem_append_right _ hf,
        List.mem_append_right _ hh, by simp [List.ne_nil_of_mem hd]⟩

/-- Witness for `repair_log_contains_unconditional_entries` on the identity
kernel and the defect-free mesh. -/
theorem repair_log_contains_unconditional_entries_witness :
    "Fixed degenerations" ∈
      (meshClean, ["Fixed degenerations", "Filled holes", "Harmonized normals"]).2 ∧
    "Filled holes" ∈
      (meshClean, ["Fixed degenerations", "Filled holes", "Harmonized normals"]).2 ∧
    "Harmonized normals" ∈
      (meshClean, ["Fixed degenerations", "Filled holes", "Harmonized normals"]).2 ∧
    (meshClean, ["Fixed degenerations", "Filled holes", "Harmonized normals"]).2 ≠
      ([] : List String) :=
  repair_log_contains_unconditional_entries kernelId meshClean
    (meshClean, ["Fixed degenerations", "Filled holes", "Harmonized normals"]) rfl
/-- **C2** (confirmed): if the shape was built but solid promotion raises,
the pipeline does not terminate: it records is_solid=false, keeps the shell
as the final geometry, and (all later stages succeeding) the invocation
finishes with success=true. -/
theorem solid_promotion_failure_shell_fallback (env : Env) (ip op : String)
    (tol : Rat) (rep : Bool) (mesh : MeshState) (ex : String)
    (h1 : env.inputExists = true)
    (hrr : env.readResult = Except.ok mesh)
    (h2 : ¬ mesh.countFacets = 0)
    (hrep : rep = true → ∃ x, repair_mesh env.kernel mesh = Except.ok x)
    (hnd : env.newDocument = Except.ok ())
    (hms : ∀ mm t, env.makeShapeFromMesh mm t = Except.ok ())
    (hsol : env.makeSolid = Except.error ex)
    (hat : env.attachObject = Except.ok ())
    (hex : env.exportStep = Except.ok ())
    (hoe : env.outputExistsAfterExport = true)
    (hcd : env.closeDocument = Except.ok ()) :
    (convert_stl_to_step env ip op tol rep false).success = true ∧
    (convert_stl_to_step env ip op tol rep false).is_solid = some false := by
  have hisok : env.makeSolid.isOk = false := by
    rw [hsol]; rfl
  cases hr : rep with
  | true =>
    obtain ⟨⟨m2, reps⟩, hrm⟩ := hrep hr
    rw [convert_stl_to_step,
      convert_run_repair env ip op tol mesh m2 reps h1 hrr h2 hrm,
      convertFromDoc_verify_eq env _ m2 tol hnd (hms m2 tol) hat hex hcd,
      if_pos hoe, hisok]
    exact ⟨rfl, rfl⟩
  | false =>
    rw [convert_stl_to_step,
      convert_run_norepair env ip op tol mesh h1 hrr h2,
      convertFromDoc_verify_eq env _ mesh tol hnd (hms mesh tol) hat hex hcd,
      if_pos hoe, hisok]
    exact ⟨rfl, rfl⟩

/-- Witness for `solid_promotion_failure_shell_fallback` at the concrete
environment whose solid promotion raises. -/
theorem solid_promotion_failure_shell_fallback_witness :
    (convert_stl_to_step envNoSolid "in.stl" "out.step" 1 true false).success = true ∧
    (convert_stl_to_step envNoSolid "in.stl" "out.step" 1 true false).is_solid =
      some false :=
  solid_promotion_failure_shell_fallback envNoSolid "in.stl" "out.step" 1 true
    meshClean "solid failed" rfl rfl (by decide)
    (fun _ => ⟨(meshClean, ["Fixed degenerations", "Filled holes", "Harmonized normals"]),
      rfl⟩)
    rfl (fun _ _ => rfl) rfl rfl rfl rfl rfl

/-- **C4** (corrected), counterexample: with a kernel whose
`fixDegenerations` raises, the fault is NOT caught inside the repair
sequencer (`repair_mesh` itself returns the error instead of a result with
a warning), and the pipeline terminates: success=false, stage
"conversion", no repairs key, and no geometry action is ever performed. -/
theorem repair_fault_not_caught_in_sequencer :
    repair_mesh kernelDegenFault meshClean =
      Except.error "fixDegenerations failed" ∧
    (convert_stl_to_step envRepairFault "in.stl" "out.step" 1 true false).success =
      false ∧
    (convert_stl_to_step envRepairFault "in.stl" "out.step" 1 true false).stage =
      some "conversion" ∧
    (convert_stl_to_step envRepairFault "in.stl" "out.step" 1 true false).repairs =
      none ∧
    (convert_run envRepairFault "in.stl" "out.step" 1 true false).2 =
      [ExtAction.closeDocument] :=
  ⟨rfl, rfl, rfl, rfl, rfl⟩

/-- **C4** (amended): a fault raised by a repair operation propagates out
of the repair sequencer, aborts the remaining operations, and is caught by
the pipeline's outer handler, terminating the invocation with
success=false, stage "conversion" and the fault message as error; no
repairs or after-repair snapshot are recorded and the mesh never proceeds
to shape reconstruction (the only external action is the best-effort
session close of the fatal handler). -/
theorem repair_fault_aborts_pipeline (env : Env) (ip op : String) (tol : Rat)
    (mesh : MeshState) (e : String)
    (h1 : env.inputExists = true)
    (hrr : env.readResult = Except.ok mesh)
    (h2 : ¬ mesh.countFacets = 0)
    (hrm : repair_mesh env.kernel mesh = Except.error e) :
    (convert_stl_to_step env ip op tol true false).success = false ∧
    (convert_stl_to_step env ip op tol true false).stage = some "conversion" ∧
    (convert_stl_to_step env ip op tol true false).error = some e ∧
    (convert_stl_to_step env ip op tol true false).repairs = none ∧
    (convert_stl_to_step env ip op tol true false).mesh_info_after = none ∧
    (convert_run env ip op tol true false).2 = [ExtAction.closeDocument] := by
  have heq : convert_run env ip op tol true false =
      handleFatal
        { success := false, input := ip, output := op, tolerance := tol,
          error := none, stage := none,
          mesh_info_before := some (get_mesh_info mesh),
          mesh_info_after := none,
          repairs := none, is_solid := none, output_size := none }
        e [] := by
    simp [convert_run, h1, hrr, h2, hrm]
  rw [convert_stl_to_step, heq]
  exact ⟨rfl, rfl, rfl, rfl, rfl, rfl⟩

/-- Witness for `repair_fault_aborts_pipeline` at the concrete environment
with the raising kernel. -/
theorem repair_fault_aborts_pipeline_witness :
    (convert_stl_to_step envRepairFault "w.stl" "w.step" 1 true false).success =
      false ∧
    (convert_stl_to_step envRepairFault "w.stl" "w.step" 1 true false).stage =
      some "conversion" ∧
    (convert_stl_to_step envRepairFault "w.stl" "w.step" 1 true false).error =
      some "fixDegenerations failed" ∧
    (convert_stl_to_step envRepairFault "w.stl" "w.step" 1 true false).repairs =
      none ∧
    (convert_stl_to_step envRepairFault "w.stl" "w.step" 1 true false).mesh_info_after =
      none ∧
    (convert_run envRepairFault "w.stl" "w.step" 1 true false).2 =
      [ExtAction.closeDocument] :=
  repair_fault_aborts_pipeline envRepairFault "w.stl" "w.step" 1 meshClean
    "fixDegenerations failed" rfl rfl (by decide) rfl
/-- **C6** (corrected), counterexample: an exported artifact of zero size
is not a terminal failure: the invocation reports success=true with
output_size = 0 and no error. -/
theorem zero_size_output_reports_success :
    (convert_stl_to_step envZeroSize "in.stl" "out.step" 1 true false).success =
      true ∧
    (convert_stl_to_step envZeroSize "in.stl" "out.step" 1 true false).output_size =
      some 0 ∧
    (convert_stl_to_step envZeroSize "in.stl" "out.step" 1 true false).error =
      none :=
  ⟨rfl, rfl, rfl⟩

/-- **C6** (amended): of the three export-verification failure modes, only
two exist and are terminal with distinct stage/error values: an export
fault surfaces via the outer handler as stage "conversion" with the raised
message, and a missing output path as stage "export" with error "STEP file
was not created"; a zero-size artifact is not detected — the invocation
reports success=true with output_size 0. -/
theorem export_failure_modes (env : Env) (ip op : String) (tol : Rat)
    (rep : Bool) (mesh : MeshState) (ex : String)
    (h1 : env.inputExists = true)
    (hrr : env.readResult = Except.ok mesh)
    (h2 : ¬ mesh.countFacets = 0)
    (hrep : rep = true → ∃ x, repair_mesh env.kernel mesh = Except.ok x)
    (hnd : env.newDocument = Except.ok ())
    (hms : ∀ mm t, env.makeShapeFromMesh mm t = Except.ok ())
    (hat : env.attachObject = Except.ok ())
    (hcd : env.closeDocument = Except.ok ()) :
    (env.exportStep = Except.error ex →
      (convert_stl_to_step env ip op tol rep false).success = false ∧
      (convert_stl_to_step env ip op tol rep false).stage = some "conversion" ∧
      (convert_stl_to_step env ip op tol rep false).error = some ex) ∧
    (env.exportStep = Except.ok () → env.outputExistsAfterExport = false →
      (convert_stl_to_step env ip op tol rep false).success = false ∧
      (convert_stl_to_step env ip op tol rep false).stage = some "export" ∧
      (convert_stl_to_step env ip op tol rep false).error =
        some "STEP file was not created") ∧
    (env.exportStep = Except.ok () → env.outputExistsAfterExport = true →
      env.outputSize = 0 →
      (convert_stl_to_step env ip op tol rep false).success = true ∧
      (convert_stl_to_step env ip op tol rep false).output_size = some 0) := by
  cases hr : rep with
  | true =>
    obtain ⟨⟨m2, reps⟩, hrm⟩ := hrep hr
    have heq := convert_run_repair env ip op tol mesh m2 reps h1 hrr h2 hrm
    refine ⟨fun hex => ?_, fun hex hoe => ?_, fun hex hoe hsz => ?_⟩
    · rw [convert_stl_to_step, heq,
        convertFromDoc_export_fault env _ m2 tol ex hnd (hms m2 tol) hat hex]
      exact ⟨rfl, rfl, rfl⟩
    · rw [convert_stl_to_step, heq,
        convertFromDoc_verify_eq env _ m2 tol hnd (hms m2 tol) hat hex hcd,
        if_neg (by simp [hoe])]
      exact ⟨rfl, rfl, rfl⟩
    · rw [convert_stl_to_step, heq,
        convertFromDoc_verify_eq env _ m2 tol hnd (hms m2 tol) hat hex hcd,
        if_pos hoe, hsz]
      exact ⟨rfl, rfl⟩
  | false =>
    have heq := convert_run_norepair env ip op tol mesh h1 hrr h2
    refine ⟨fun hex => ?_, fun hex hoe => ?_, fun hex hoe hsz => ?_⟩
    · rw [convert_stl_to_step, heq,
        convertFromDoc_export_fault env _ mesh tol ex hnd (hms mesh tol) hat hex]
      exact ⟨rfl, rfl, rfl⟩
    · rw [convert_stl_to_step, heq,
        convertFromDoc_verify_eq env _ mesh tol hnd (hms mesh tol) hat hex hcd,
        if_neg (by simp [hoe])]
      exact ⟨rfl, rfl, rfl⟩
    · rw [convert_stl_to_step, heq,
        convertFromDoc_verify_eq env _ mesh tol hnd (hms mesh tol) hat hex hcd,
        if_pos hoe, hsz]
      exact ⟨rfl, rfl⟩

/-- Witness for `export_failure_modes` at the three concrete environments:
export raising, output missing, and output present with size zero. -/
theorem export_failure_modes_witness :
    ((convert_stl_to_step envExportFault "a.stl" "a.step" 1 false false).success =
        false ∧
      (convert_stl_to_step envExportFault "a.stl" "a.step" 1 false false).stage =
        some "conversion" ∧
      (convert_stl_to_step envExportFault "a.stl" "a.step" 1 false false).error =
        some "export boom") ∧
    ((convert_stl_to_step envNoOutput "b.stl" "b.step" 1 false false).success =
        false ∧
      (convert_stl_to_step envNoOutput "b.stl" "b.step" 1 false false).stage =
        some "export" ∧
      (convert_stl_to_step envNoOutput "b.stl" "b.step" 1 false false).error =
        some "STEP file was not created") ∧
    ((convert_stl_to_step envZeroSize "c.stl" "c.step" 1 false false).success =
        true ∧
      (convert_stl_to_step envZeroSize "c.stl" "c.step" 1 false false).output_size =
        some 0) :=
  ⟨(export_failure_modes envExportFault "a.stl" "a.step" 1 false meshClean
      "export boom" rfl rfl (by decide) (fun h => Bool.noConfusion h) rfl
      (fun _ _ => rfl) rfl rfl).1 rfl,
   (export_failure_modes envNoOutput "b.stl" "b.step" 1 false meshClean
      "unused" rfl rfl (by decide) (fun h => Bool.noConfusion h) rfl
      (fun _ _ => rfl) rfl rfl).2.1 rfl rfl,
   (export_failure_modes envZeroSize "c.stl" "c.step" 1 false meshClean
      "unused" rfl rfl (by decide) (fun h => Bool.noConfusion h) rfl
      (fun _ _ => rfl) rfl rfl).2.2 rfl rfl rfl⟩

/-- **C7** (corrected), counterexample: two environments identical except
that closing the session raises in the second.  With the close succeeding,
the invocation ends with error "STEP file was not created" at stage
"export"; the close fault is re-caught by the outer handler and overwrites
both fields (error "close failed", stage "conversion"), so the primary
error and stage established before the close are not preserved. -/
theorem close_fault_overwrites_error_and_stage :
    (convert_stl_to_step envNoOutput "in.stl" "out.step" 1 true false).error =
      some "STEP file was not created" ∧
    (convert_stl_to_step envNoOutput "in.stl" "out.step" 1 true false).stage =
      some "export" ∧
    envCloseFault = { envNoOutput with closeDocument := Except.error "close failed" } ∧
    (convert_stl_to_step envCloseFault "in.stl" "out.step" 1 true false).error =
      some "close failed" ∧
    (convert_stl_to_step envCloseFault "in.stl" "out.step" 1 true false).stage =
      some "conversion" :=
  ⟨rfl, rfl, rfl, rfl, rfl⟩

/-- **C7** (amended): on every exit path of an invocation that created a
document, a session close is attempted (the fatal handler even re-attempts
it), and a close fault never changes the already-established success value;
the error and stage fields, however, can be overwritten by a close fault
(see the counterexample). -/
theorem session_close_attempted_and_success_preserved (env : Env)
    (ip op : String) (tol : Rat) (rep io : Bool) :
    (ExtAction.newDocument ∈ (convert_run env ip op tol rep io).2 →
      ExtAction.closeDocument ∈ (convert_run env ip op tol rep io).2) ∧
    (convert_run { env with closeDocument := Except.ok () } ip op tol rep io).1.success =
      (convert_run env ip op tol rep io).1.success :=
  ⟨(convert_run_inv env ip op tol rep io).2.2.1,
   convert_run_success_close env ip op tol rep io⟩

/-- Witness for `session_close_attempted_and_success_preserved` at the
environment whose close raises. -/
theorem session_close_attempted_and_success_preserved_witness :
    ExtAction.closeDocument ∈
      (convert_run envCloseFault "in.stl" "out.step" 1 true false).2 ∧
    (convert_run { envCloseFault with closeDocument := Except.ok () }
        "in.stl" "out.step" 1 true false).1.success =
      (convert_run envCloseFault "in.stl" "out.step" 1 true false).1.success :=
  ⟨(session_close_attempted_and_success_preserved envCloseFault "in.stl"
      "out.step" 1 true false).1 (by decide),
   (session_close_attempted_and_success_preserved envCloseFault "in.stl"
      "out.step" 1 true false).2⟩

/-- **C8** (corrected), counterexample: in info-only mode with repair
requested and a successful read (the before-snapshot is present), the
after-snapshot is absent — refuting "present iff repair requested and read
succeeded". -/
theorem info_only_omits_mesh_info_after :
    (convert_stl_to_step envOk "in.stl" "out.step" 1 true true).success = true ∧
    (convert_stl_to_step envOk "in.stl" "out.step" 1 true true).mesh_info_before.isSome =
      true ∧
    (convert_stl_to_step envOk "in.stl" "out.step" 1 true true).mesh_info_after =
      none :=
  ⟨rfl, rfl, rfl⟩

/-- **C8** (amended): mesh_info_after is present iff repair was requested,
info-only mode was not requested, the input existed, the read produced a
non-empty mesh, and the repair sequence completed without fault. -/
theorem mesh_info_after_iff (env : Env) (ip op : String) (tol : Rat)
    (rep io : Bool) :
    (convert_stl_to_step env ip op tol rep io).mesh_info_after.isSome = true ↔
      (rep = true ∧ io = false ∧ env.inputExists = true ∧
        ∃ m, env.readResult = Except.ok m ∧ m.countFacets ≠ 0 ∧
          ∃ x, repair_mesh env.kernel m = Except.ok x) :=
  (convert_run_inv env ip op tol rep io).2.2.2

/-- Witness for `mesh_info_after_iff` at the all-succeeding environment. -/
theorem mesh_info_after_iff_witness :
    (convert_stl_to_step envOk "in.stl" "out.step" 1 true false).mesh_info_after.isSome =
      true :=
  (mesh_info_after_iff envOk "in.stl" "out.step" 1 true false).mpr
    ⟨rfl, rfl, rfl, meshClean, rfl, by decide,
     (meshClean, ["Fixed degenerations", "Filled holes", "Harmonized normals"]), rfl⟩

/-- **C9** (corrected), counterexample: on a mesh with two duplicate
points, the first repair pass logs four entries; the second pass on the
already-repaired mesh logs exactly the three unconditional entries — a log
that is neither empty nor equal to the first pass's log. -/
theorem repair_log_not_idempotent :
    repair_mesh kernelDedup meshDup =
      Except.ok (meshClean,
        ["Removed 2 duplicate points", "Fixed degenerations", "Filled holes",
         "Harmonized normals"]) ∧
    repair_mesh kernelDedup meshClean =
      Except.ok (meshClean,
        ["Fixed degenerations", "Filled holes", "Harmonized normals"]) ∧
    (["Fixed degenerations", "Filled holes", "Harmonized normals"] : List String) ≠
      [] ∧
    (["Fixed degenerations", "Filled holes", "Harmonized normals"] : List String) ≠
      ["Removed 2 duplicate points", "Fixed degenerations", "Filled holes",
       "Harmonized normals"] :=
  ⟨rfl, rfl, by decide, by decide⟩

/-- **C9** (amended): repair is not log-idempotent.  A repair pass on a
mesh with nothing left to fix (as after a fully effective first pass) still
logs exactly the three unconditional entries "Fixed degenerations",
"Filled holes" and "Harmonized normals": the second-pass log is never
empty, and it equals the first pass's log only when the first pass also
logged no conditional repairs. -/
theorem second_repair_pass_log_unconditional (k : Kernel)
    (m m1 m2 m3 m4 m5 : MeshState)
    (h1 : k.removeDuplicatedPoints m = Except.ok m1)
    (hp : ¬ m1.countPoints < m.countPoints)
    (h2 : k.removeDuplicatedFacets m1 = Except.ok m2)
    (hf : ¬ m2.countFacets < m1.countFacets)
    (hsi : m2.hasSelfIntersections = false)
    (h3 : k.fixDegenerations m2 = Except.ok m3)
    (hnm : m3.hasNonManifolds = false)
    (h4 : k.fillupHoles m3 = Except.ok m4)
    (h5 : k.harmonizeNormals m4 = Except.ok m5) :
    repair_mesh k m =
      Except.ok (m5, ["Fixed degenerations", "Filled holes", "Harmonized normals"]) := by
  rw [repair_mesh]
  simp only [h1, if_neg hp, h2, if_neg hf]
  rw [repairSelfInt, if_neg (by simp [hsi])]
  rw [repairDegen]
  simp only [h3]
  rw [repairNonManifold, if_neg (by simp [hnm])]
  rw [repairFill]
  simp only [h4, h5]
  rfl

/-- Witness for `second_repair_pass_log_unconditional`: the second pass on
the already-repaired duplicate-point mesh. -/
theorem second_repair_pass_log_unconditional_witness :
    repair_mesh kernelDedup meshClean =
      Except.ok (meshClean,
        ["Fixed degenerations", "Filled holes", "Harmonized normals"]) :=
  second_repair_pass_log_unconditional kernelDedup meshClean meshClean meshClean
    meshClean meshClean meshClean rfl (by decide) rfl (by decide) rfl rfl rfl rfl rfl
